import Mathlib

/-!
Shallow embedding of the flight-tracker aggregation engine
(`src/tracker.rs` of the `flight-tracker` repository), together with
theorems checking the natural-language specification against it.

Modelling conventions:
* `DateTime<Utc>` and `chrono::Duration` are modelled as `Int`, counted in
  milliseconds.  `Duration::num_seconds` truncates toward zero, which on the
  absolute value of a millisecond count is `Int.natAbs · / 1000`.
* `HashMap` is modelled as an association list together with the access
  functions `lookupKV`, `setEntry` and `bump` (for `entry(k).or_insert(0) += 1`).
* `u8`/`u16`/`u64` counters and codes are modelled as `Nat`; `i16`/`i64` as
  `Int`.  `f64` payload fields (heading, ground speed, latitude, longitude)
  are carried as `Int` placeholders: no theorem computes with their values,
  they are only stored and compared for (in)equality.
* The external `adsb` decoder and the external CPR resolver
  `cpr::get_position` are out of scope of the repository; they are passed in
  as function parameters (`decode`, `getPos`), exactly at the interface the
  specification gives for them.
* Rust code paths that terminate the process are made explicit with
  `RustOutcome.panicked` / `UpdateAvrResult.panicked`.
-/

/-- CPR parity tag of a position fragment. -/
inductive Parity : Type
  | Even : Parity
  | Odd : Parity
deriving DecidableEq, Repr

/-- One half of a two-part CPR position encoding: its parity and the raw
encoded local-position bits (`cpr_latitude`, `cpr_longitude`). -/
structure CPRFrame : Type where
  parity : Parity
  cpr_latitude : Nat
  cpr_longitude : Nat
deriving DecidableEq, Repr

/-- A resolved coordinate as returned by the external CPR resolver.  The
source stores `f64` degrees; the values are opaque to every claim, so they
are carried as `Int`. -/
structure Position : Type where
  latitude : Int
  longitude : Int
deriving DecidableEq, Repr

/-- Source for vertical-rate information (from the external `adsb` crate). -/
inductive VerticalRateSource : Type
  | BarometricPressureAltitude : VerticalRateSource
  | GeometricAltitude : VerticalRateSource
deriving DecidableEq, Repr

/-- A tracked aircraft (`struct Aircraft` in `src/tracker.rs`).  Times are
milliseconds (`Int`). -/
structure Aircraft : Type where
  icao_address : Nat
  callsign : Option String
  squawk : Option Nat
  altitude : Option Nat
  heading : Option Int
  ground_speed : Option Int
  vertical_rate : Option Int
  latitude : Option Int
  longitude : Option Int
  vertical_rate_source : Option VerticalRateSource
  last_seen : Int
  last_cpr_even : Option (CPRFrame × Int)
  last_cpr_odd : Option (CPRFrame × Int)
  last_pos_seen : Option Int
deriving DecidableEq, Repr

/-- `Aircraft::new` — all optional fields absent, `last_seen` set to the
creation time. -/
def Aircraft.new (icao_address : Nat) (time : Int) : Aircraft where
  icao_address := icao_address
  callsign := none
  squawk := none
  altitude := none
  heading := none
  ground_speed := none
  vertical_rate := none
  latitude := none
  longitude := none
  vertical_rate_source := none
  last_seen := time
  last_cpr_even := none
  last_cpr_odd := none
  last_pos_seen := none

/-- `Aircraft::update_position`.  The external resolver `cpr::get_position`
takes its two fragments as one ordered pair, so it is modelled as
`getPos : CPRFrame × CPRFrame → Option Position`.  The guard
`delta.num_seconds().abs() <= 30` of the source becomes
`(even_time - odd_time).natAbs / 1000 ≤ 30` (truncation toward zero of the
whole-second count, then absolute value).  Returns the updated aircraft and
the optional elapsed duration since the previous position fix. -/
def Aircraft.update_position (getPos : CPRFrame × CPRFrame → Option Position)
    (self : Aircraft) (cpr_frame : CPRFrame) (when : Int) : Aircraft × Option Int :=
  let last_parity := cpr_frame.parity
  let self :=
    match last_parity with
    | Parity.Even => { self with last_cpr_even := some (cpr_frame, when) }
    | Parity.Odd => { self with last_cpr_odd := some (cpr_frame, when) }
  match self.last_cpr_even, self.last_cpr_odd with
  | some (even, even_time), some (odd, odd_time) =>
    let delta := even_time - odd_time
    if delta.natAbs / 1000 ≤ 30 then
      let position :=
        match last_parity with
        | Parity.Even => getPos (odd, even)
        | Parity.Odd => getPos (even, odd)
      match position with
      | some p =>
        let prev_pos_seen := self.last_pos_seen
        let self := { self with
          latitude := some p.latitude
          longitude := some p.longitude
          last_pos_seen := some when }
        match prev_pos_seen with
        | some lps => (self, some (when - lps))
        | none => (self, none)
      | none => (self, none)
    else (self, none)
  | _, _ => (self, none)

/-- Payload variants of an ADS-B message, as matched by
`Tracker::update_with_message` (fields the tracker does not read are
omitted, as they are by its `..` patterns). -/
inductive ADSBMessageKind : Type
  | AircraftIdentification (callsign : String) : ADSBMessageKind
  | AirbornePosition (altitude : Nat) (cpr_frame : CPRFrame) : ADSBMessageKind
  | AirborneVelocity (heading : Int) (ground_speed : Int) (vertical_rate : Int)
      (vertical_rate_source : VerticalRateSource) : ADSBMessageKind
deriving DecidableEq, Repr

/-- Payload variants of a Mode S message read by the tracker. -/
inductive ModeSMessageKind : Type
  | SurveillanceIdentity (squawk : Nat) : ModeSMessageKind
deriving DecidableEq, Repr

/-- The tagged message kind: ADS-B or Mode S (both carrying an ICAO
address) or `Unknown` (no resolvable address). -/
inductive MessageKind : Type
  | ADSBMessage (icao_address : Nat) (kind : ADSBMessageKind) : MessageKind
  | ModeSMessage (icao_address : Nat) (kind : ModeSMessageKind) : MessageKind
  | Unknown : MessageKind
deriving DecidableEq, Repr

/-- One decoded surveillance message: a downlink-format code plus kind. -/
structure Message : Type where
  downlink_format : Nat
  kind : MessageKind
deriving DecidableEq, Repr

/-- Whether a message kind is the `Unknown` variant. -/
def MessageKind.isUnknown : MessageKind → Bool
  | MessageKind.Unknown => true
  | _ => false

/-- Lookup in an association list (the model of `HashMap::get`). -/
def lookupKV {β : Type} (k : Nat) : List (Nat × β) → Option β
  | [] => none
  | (k1, v) :: rest => if k1 = k then some v else lookupKV k rest

/-- Insert-or-overwrite in an association list (the model of
`HashMap::insert`). -/
def setEntry {α β : Type} [DecidableEq α] (k : α) (v : β) : List (α × β) → List (α × β)
  | [] => [(k, v)]
  | (k1, v1) :: rest => if k1 = k then (k1, v) :: rest else (k1, v1) :: setEntry k v rest

/-- Increment of a counter map entry: the model of
`map.entry(k).or_insert(0) += 1`. -/
def bump {α : Type} [DecidableEq α] (k : α) : List (α × Nat) → List (α × Nat)
  | [] => [(k, 1)]
  | (k1, v) :: rest => if k1 = k then (k1, v + 1) :: rest else (k1, v) :: bump k rest

/-- The value of a counter map at a key (missing keys count 0). -/
def countOf (k : Nat) (l : List (Nat × Nat)) : Nat := (lookupKV k l).getD 0

/-- Sum of all values of a counter map. -/
def sumVals (l : List (Nat × Nat)) : Nat := (l.map Prod.snd).sum

/-- The tracker state (`struct Tracker` in `src/tracker.rs`).  Wall-clock
times (`first_message_real_time`, `most_recent_message_real_time`) and event
times are milliseconds (`Int`). -/
structure Tracker : Type where
  map : List (Nat × Aircraft)
  num_messages : Nat
  num_unknown_messages : Nat
  unknown_message_counts : List (Nat × Nat)
  unknown_message_data : List (Nat × List Nat)
  known_message_counts : List (Nat × Nat)
  most_recent_message_time : Option Int
  first_message_real_time : Option Int
  most_recent_message_real_time : Option Int
  pos_update_times : List (Int × Nat)
deriving DecidableEq, Repr

/-- `Tracker::new` / `Tracker::default`. -/
def Tracker.new : Tracker where
  map := []
  num_messages := 0
  num_unknown_messages := 0
  unknown_message_counts := []
  unknown_message_data := []
  known_message_counts := []
  most_recent_message_time := none
  first_message_real_time := none
  most_recent_message_real_time := none
  pos_update_times := []

/-- `Tracker::update_unknown_message_statistics`. -/
def Tracker.update_unknown_message_statistics (self : Tracker) (message : Message)
    (data : List Nat) : Tracker :=
  { self with
    unknown_message_counts := bump message.downlink_format self.unknown_message_counts
    unknown_message_data := setEntry message.downlink_format data self.unknown_message_data
    num_unknown_messages := self.num_unknown_messages + 1 }

/-- The per-kind dispatch of `Tracker::update_with_message` (its second
`match message.kind`): updates the aircraft record and, for a position fix
interval, the `pos_update_times` histogram, which are the only two pieces of
state those match arms touch. -/
def applyMessageKind (getPos : CPRFrame × CPRFrame → Option Position)
    (a : Aircraft) (kind : MessageKind) (time : Int)
    (pos_update_times : List (Int × Nat)) : Aircraft × List (Int × Nat) :=
  match kind with
  | MessageKind.ADSBMessage _ (ADSBMessageKind.AircraftIdentification callsign) =>
    ({ a with callsign := some callsign.trim }, pos_update_times)
  | MessageKind.ADSBMessage _ (ADSBMessageKind.AirbornePosition altitude cpr_frame) =>
    let a := { a with altitude := some altitude }
    let r := Aircraft.update_position getPos a cpr_frame time
    match r.2 with
    | some dur =>
      let ms := 100 * (Int.tdiv dur 100)
      (r.1, bump ms pos_update_times)
    | none => (r.1, pos_update_times)
  | MessageKind.ADSBMessage _ (ADSBMessageKind.AirborneVelocity heading ground_speed
      vertical_rate vertical_rate_source) =>
    ({ a with
        heading := some heading
        ground_speed := some ground_speed
        vertical_rate := some vertical_rate
        vertical_rate_source := some vertical_rate_source }, pos_update_times)
  | MessageKind.ModeSMessage _ (ModeSMessageKind.SurveillanceIdentity squawk) =>
    ({ a with squawk := some squawk }, pos_update_times)
  | MessageKind.Unknown => (a, pos_update_times)

/-- The known-ICAO path of `Tracker::update_with_message`: bump the
per-downlink-format known count, fetch-or-create the aircraft record,
dispatch the payload, set `last_seen` unconditionally, update the global
most-recent event time to the running maximum, and maintain the wall-clock
first/most-recent processing times. -/
def Tracker.update_known (getPos : CPRFrame × CPRFrame → Option Position)
    (self : Tracker) (message : Message) (icao_address : Nat)
    (time now : Int) : Tracker :=
  let self := { self with
    known_message_counts := bump message.downlink_format self.known_message_counts }
  let a := (lookupKV icao_address self.map).getD (Aircraft.new icao_address time)
  let r := applyMessageKind getPos a message.kind time self.pos_update_times
  let a := { r.1 with last_seen := time }
  let self := { self with
    map := setEntry icao_address a self.map
    pos_update_times := r.2 }
  let self := { self with
    most_recent_message_time :=
      match self.most_recent_message_time with
      | some most_recent_time =>
        if most_recent_time < time then some time else some most_recent_time
      | none => some time }
  let self := { self with
    first_message_real_time :=
      match self.first_message_real_time with
      | none => some now
      | some t0 => some t0 }
  { self with most_recent_message_real_time := some now }

/-- `Tracker::update_with_message`.  `time` is the event timestamp of the
message; `now` models the wall-clock value `Utc::now()` the source reads at
the start of the call.  `Unknown` messages take the early-return path after
the total count increment. -/
def Tracker.update_with_message (getPos : CPRFrame × CPRFrame → Option Position)
    (self : Tracker) (message : Message) (data : List Nat)
    (time now : Int) : Tracker :=
  let self := { self with num_messages := self.num_messages + 1 }
  match message.kind with
  | MessageKind.ADSBMessage icao_address _ =>
    self.update_known getPos message icao_address time now
  | MessageKind.ModeSMessage icao_address _ =>
    self.update_known getPos message icao_address time now
  | MessageKind.Unknown => self.update_unknown_message_statistics message data

/-- Value of a hexadecimal digit character, if any. -/
def hexDigit (c : Char) : Option Nat :=
  if ('0' ≤ c ∧ c ≤ '9') then some (c.toNat - '0'.toNat)
  else if ('a' ≤ c ∧ c ≤ 'f') then some (c.toNat - 'a'.toNat + 10)
  else if ('A' ≤ c ∧ c ≤ 'F') then some (c.toNat - 'A'.toNat + 10)
  else none

/-- `u8::from_str_radix(s, 16)` on a two-character slice: an optional
leading plus sign followed by hexadecimal digits; anything else is a parse
error (`none`). -/
def u8FromStrRadix16 (c0 c1 : Char) : Option Nat :=
  if c0 = '+' then hexDigit c1
  else
    match hexDigit c0, hexDigit c1 with
    | some d0, some d1 => some (16 * d0 + d1)
    | _, _ => none

/-- Outcome of running a Rust computation that can terminate the process:
either a value or a panic. -/
inductive RustOutcome (α : Type) : Type
  | ok (val : α) : RustOutcome α
  | panicked : RustOutcome α
deriving DecidableEq, Repr

/-- The pair loop of `parse_avr`: indices `1, 3, 5, ...` run while
`i < frame.len() - 1`, i.e. while at least two characters remain, so the
loop reads consecutive two-character slices and ignores a trailing single
character; `collect::<Result<_, _>>` stops at the first parse error. -/
def parseHexPairs : List Char → Except Unit (List Nat)
  | c0 :: c1 :: rest =>
    match u8FromStrRadix16 c0 c1 with
    | some v =>
      match parseHexPairs rest with
      | Except.ok l => Except.ok (v :: l)
      | Except.error e => Except.error e
    | none => Except.error ()
  | _ => Except.ok []

/-- `parse_avr` of `src/tracker.rs`: iterates hex pairs of `frame` from
index 1 up to (excluding) `frame.len() - 1`.  On the empty string the
`usize` computation `frame.len() - 1` underflows: a debug build panics at
the subtraction; a release build wraps and the slice `frame[1..3]` is out
of bounds, which also panics.  Both are modelled as `panicked`. -/
def parse_avr (frame : List Char) : RustOutcome (Except Unit (List Nat)) :=
  match frame with
  | [] => RustOutcome.panicked
  | _ :: rest => RustOutcome.ok (parseHexPairs rest)

/-- Result of `Tracker::update_with_avr` as observed by the process: a
normal return with the new tracker, a propagated typed decode error, or a
panic. -/
inductive UpdateAvrResult : Type
  | ok (t : Tracker) : UpdateAvrResult
  | decodeError : UpdateAvrResult
  | panicked : UpdateAvrResult
deriving DecidableEq, Repr

/-- `Tracker::update_with_avr`.  The external `adsb::parse_avr` decoder is
passed in as `decode` (it is specified only at its interface boundary:
frame text in, decoded message or decode error out).  A decode error is
propagated by `?`.  If decoding succeeds but the local hex re-parse
`parse_avr` returns an error, the source prints the error and executes a
panic, which terminates the process; the local parse can also panic itself
on the empty frame. -/
def Tracker.update_with_avr (getPos : CPRFrame × CPRFrame → Option Position)
    (decode : List Char → Except Unit Message) (self : Tracker)
    (frame : List Char) (time now : Int) : UpdateAvrResult :=
  match decode frame with
  | Except.error _ => UpdateAvrResult.decodeError
  | Except.ok message =>
    match parse_avr frame with
    | RustOutcome.panicked => UpdateAvrResult.panicked
    | RustOutcome.ok (Except.ok data) =>
      UpdateAvrResult.ok (self.update_with_message getPos message data time now)
    | RustOutcome.ok (Except.error _) => UpdateAvrResult.panicked

/-- `Tracker::update_with_binary`, with the external binary decoder passed
in as `decode`. -/
def Tracker.update_with_binary (getPos : CPRFrame × CPRFrame → Option Position)
    (decode : List Nat → Except Unit Message) (self : Tracker)
    (frame : List Nat) (time now : Int) : Except Unit Tracker :=
  match decode frame with
  | Except.error e => Except.error e
  | Except.ok message =>
    Except.ok (self.update_with_message getPos message frame time now)

/-- `Tracker::get_current_aircraft`: the aircraft whose `last_seen` lies
strictly within `interval` of `now`. -/
def Tracker.get_current_aircraft (self : Tracker) (interval : Int) (now : Int) :
    List Aircraft :=
  (self.map.map Prod.snd).filter (fun a => now - a.last_seen < interval)

/-- `Tracker::get_all_aircraft`. -/
def Tracker.get_all_aircraft (self : Tracker) : List Aircraft :=
  self.map.map Prod.snd

/-- `Tracker::get_num_messages`. -/
def Tracker.get_num_messages (self : Tracker) : Nat := self.num_messages

/-- `Tracker::get_num_unknown_messages`. -/
def Tracker.get_num_unknown_messages (self : Tracker) : Nat :=
  self.num_unknown_messages

/-- `Tracker::get_unknown_message_statistics`. -/
def Tracker.get_unknown_message_statistics (self : Tracker) : List (Nat × Nat) :=
  self.unknown_message_counts

/-- `Tracker::get_unknown_message_data`. -/
def Tracker.get_unknown_message_data (self : Tracker) : List (Nat × List Nat) :=
  self.unknown_message_data

/-- `Tracker::get_known_message_statistics`. -/
def Tracker.get_known_message_statistics (self : Tracker) : List (Nat × Nat) :=
  self.known_message_counts

/-- `Tracker::get_most_recent_message_time`. -/
def Tracker.get_most_recent_message_time (self : Tracker) : Option Int :=
  self.most_recent_message_time

/-- `Tracker::get_messages_per_second_real_time`.  The source computes the
`f64` quotient `1000.0 * num_messages / elapsed_ms` with no guard on a zero
denominator (IEEE division, which does not trap); the floating-point value
itself is outside the embedding, so the function returns the operands of
that division — the message count and the elapsed milliseconds — with
exactly the source's `Option` structure. -/
def Tracker.get_messages_per_second_real_time (self : Tracker) :
    Option (Nat × Int) :=
  match self.first_message_real_time with
  | some start =>
    match self.most_recent_message_real_time with
    | some e => some (self.num_messages, e - start)
    | none => none
  | none => none

/-- One call to `Tracker::update_with_message`: the decoded message, the
raw payload bytes, the event timestamp and the wall-clock time of the
call. -/
structure UpdateEvent : Type where
  message : Message
  data : List Nat
  time : Int
  now : Int

/-- Fold a sequence of update calls over a tracker. -/
def Tracker.processAll (getPos : CPRFrame × CPRFrame → Option Position)
    (self : Tracker) (evs : List UpdateEvent) : Tracker :=
  evs.foldl (fun t e => t.update_with_message getPos e.message e.data e.time e.now) self

/-- Event timestamps of the messages of a sequence that carry a resolvable
ICAO address (every variant except `Unknown`). -/
def knownEventTimes (evs : List UpdateEvent) : List Int :=
  (evs.filter (fun e => !e.message.kind.isUnknown)).map (fun e => e.time)

/-- One step of the running maximum the source maintains for the global
most-recent event time (`if most_recent_time < time then time else keep`). -/
def maxTimeStep (m : Option Int) (t : Int) : Int :=
  match m with
  | none => t
  | some x => if x < t then t else x

/-- Running maximum of a list of timestamps starting from an optional
current value. -/
def runningMax (m : Option Int) (ts : List Int) : Option Int :=
  ts.foldl (fun acc t => some (maxTimeStep acc t)) m

/-- Bumping a counter map entry raises the total of its values by one. -/
theorem sumVals_bump (k : Nat) (l : List (Nat × Nat)) :
    sumVals (bump k l) = sumVals l + 1 := by
  induction l with
  | nil => simp [bump, sumVals]
  | cons p rest ih =>
    obtain ⟨k1, v⟩ := p
    by_cases h : k1 = k
    · simp [bump, h, sumVals]
      omega
    · simp [bump, h, sumVals] at ih ⊢
      omega

/-- Bumping a counter map never decreases the value at any key. -/
theorem countOf_le_bump (j k : Nat) (l : List (Nat × Nat)) :
    countOf j l ≤ countOf j (bump k l) := by
  induction l with
  | nil =>
    by_cases h : k = j <;> simp [bump, countOf, lookupKV, h]
  | cons p rest ih =>
    obtain ⟨k1, v⟩ := p
    by_cases h1 : k1 = k
    · subst h1
      by_cases h2 : k1 = j
      · subst h2
        simp [bump, countOf, lookupKV]
      · simp [bump, countOf, lookupKV, h2]
    · by_cases h2 : k1 = j
      · subst h2
        simp [bump, countOf, lookupKV, h1]
      · simp only [bump, countOf, lookupKV, h1, h2, if_false, if_neg]
        exact ih

/-- Every update increments the total message count by exactly one. -/
theorem update_num_messages (getPos : CPRFrame × CPRFrame → Option Position)
    (t : Tracker) (m : Message) (d : List Nat) (ti no : Int) :
    (t.update_with_message getPos m d ti no).num_messages = t.num_messages + 1 := by
  obtain ⟨df, k⟩ := m
  cases k <;>
    simp [Tracker.update_with_message, Tracker.update_known,
      Tracker.update_unknown_message_statistics]

/-- Effect of an `Unknown`-variant update on the statistics fields: the
unknown counters advance, everything else stays. -/
theorem update_unknown_stats (getPos : CPRFrame × CPRFrame → Option Position)
    (t : Tracker) (m : Message) (d : List Nat) (ti no : Int)
    (hu : m.kind = MessageKind.Unknown) :
    (t.update_with_message getPos m d ti no).known_message_counts = t.known_message_counts
    ∧ (t.update_with_message getPos m d ti no).unknown_message_counts
        = bump m.downlink_format t.unknown_message_counts
    ∧ (t.update_with_message getPos m d ti no).num_unknown_messages
        = t.num_unknown_messages + 1
    ∧ (t.update_with_message getPos m d ti no).most_recent_message_time
        = t.most_recent_message_time
    ∧ (t.update_with_message getPos m d ti no).first_message_real_time
        = t.first_message_real_time
    ∧ (t.update_with_message getPos m d ti no).most_recent_message_real_time
        = t.most_recent_message_real_time := by
  obtain ⟨df, k⟩ := m
  cases k <;> simp_all [Tracker.update_with_message,
    Tracker.update_unknown_message_statistics]

/-- Effect of a known-address update on the statistics fields: the
per-downlink-format known count advances, the unknown counters stay, and
the global most-recent event time takes the running maximum. -/
theorem update_known_stats (getPos : CPRFrame × CPRFrame → Option Position)
    (t : Tracker) (m : Message) (d : List Nat) (ti no : Int)
    (hk : m.kind.isUnknown = false) :
    (t.update_with_message getPos m d ti no).known_message_counts
        = bump m.downlink_format t.known_message_counts
    ∧ (t.update_with_message getPos m d ti no).unknown_message_counts
        = t.unknown_message_counts
    ∧ (t.update_with_message getPos m d ti no).num_unknown_messages
        = t.num_unknown_messages
    ∧ (t.update_with_message getPos m d ti no).most_recent_message_time
        = some (maxTimeStep t.most_recent_message_time ti) := by
  obtain ⟨df, k⟩ := m
  cases k <;> simp_all [Tracker.update_with_message, Tracker.update_known,
    MessageKind.isUnknown] <;>
    (cases t.most_recent_message_time <;> simp [maxTimeStep] <;> split_ifs <;> rfl)

/-- Unfolding of one step of `processAll`. -/
theorem processAll_cons (getPos : CPRFrame × CPRFrame → Option Position)
    (t : Tracker) (e : UpdateEvent) (evs : List UpdateEvent) :
    t.processAll getPos (e :: evs)
      = (t.update_with_message getPos e.message e.data e.time e.now).processAll getPos evs := by
  simp [Tracker.processAll]

/-- The global most-recent event time after a fold of updates is the
running maximum over the event times of the known-address messages. -/
theorem processAll_most_recent (getPos : CPRFrame × CPRFrame → Option Position)
    (evs : List UpdateEvent) : ∀ t : Tracker,
    (t.processAll getPos evs).most_recent_message_time
      = runningMax t.most_recent_message_time (knownEventTimes evs) := by
  induction evs with
  | nil =>
    intro t
    simp [Tracker.processAll, knownEventTimes, runningMax]
  | cons e rest ih =>
    intro t
    rw [processAll_cons, ih]
    cases hu : e.message.kind.isUnknown
    · have hstep := (update_known_stats getPos t e.message e.data e.time e.now hu).2.2.2
      rw [hstep]
      simp [knownEventTimes, List.filter_cons, hu, runningMax]
    · have hkind : e.message.kind = MessageKind.Unknown := by
        cases hk : e.message.kind <;> simp_all [MessageKind.isUnknown]
      have hstep := (update_unknown_stats getPos t e.message e.data e.time e.now hkind).2.2.2.1
      rw [hstep]
      simp [knownEventTimes, List.filter_cons, hu]

/-- Total message count after a fold of updates. -/
theorem processAll_num_messages (getPos : CPRFrame × CPRFrame → Option Position)
    (evs : List UpdateEvent) : ∀ t : Tracker,
    (t.processAll getPos evs).num_messages = t.num_messages + evs.length := by
  induction evs with
  | nil => intro t; simp [Tracker.processAll]
  | cons e rest ih =>
    intro t
    rw [processAll_cons, ih, update_num_messages]
    simp [List.length_cons]
    omega

/-- Sum of the per-downlink-format known counts plus the unknown count,
after a fold of updates. -/
theorem processAll_counter_sum (getPos : CPRFrame × CPRFrame → Option Position)
    (evs : List UpdateEvent) : ∀ t : Tracker,
    sumVals (t.processAll getPos evs).known_message_counts
        + (t.processAll getPos evs).num_unknown_messages
      = sumVals t.known_message_counts + t.num_unknown_messages + evs.length := by
  induction evs with
  | nil => intro t; simp [Tracker.processAll]
  | cons e rest ih =>
    intro t
    rw [processAll_cons, ih]
    cases hu : e.message.kind.isUnknown
    · obtain ⟨hk, -, hn, -⟩ := update_known_stats getPos t e.message e.data e.time e.now hu
      rw [hk, hn, sumVals_bump]
      simp [List.length_cons]
      omega
    · have hkind : e.message.kind = MessageKind.Unknown := by
        cases hk : e.message.kind <;> simp_all [MessageKind.isUnknown]
      obtain ⟨hk, -, hn, -⟩ := update_unknown_stats getPos t e.message e.data e.time e.now hkind
      rw [hk, hn]
      simp [List.length_cons]
      omega

/-- A message kind is `Unknown` exactly when `isUnknown` says so. -/
theorem isUnknown_true_iff (k : MessageKind) :
    k.isUnknown = true ↔ k = MessageKind.Unknown := by
  cases k <;> simp [MessageKind.isUnknown]

/-- A CPR resolver that never yields a coordinate. -/
def getPosNone : CPRFrame × CPRFrame → Option Position := fun _ => none

/-- A CPR resolver that always yields the coordinate (10, 20). -/
def getPosConst : CPRFrame × CPRFrame → Option Position :=
  fun _ => some { latitude := 10, longitude := 20 }

/-- An even-parity fragment. -/
def evenFrame : CPRFrame := { parity := Parity.Even, cpr_latitude := 0, cpr_longitude := 0 }

/-- A second, distinct even-parity fragment. -/
def evenFrame2 : CPRFrame := { parity := Parity.Even, cpr_latitude := 1, cpr_longitude := 1 }

/-- An odd-parity fragment. -/
def oddFrame : CPRFrame := { parity := Parity.Odd, cpr_latitude := 0, cpr_longitude := 0 }

/-- An aircraft record holding an odd fragment that arrived at time 0 ms. -/
def aircraftWithOdd : Aircraft :=
  { Aircraft.new 1 0 with last_cpr_odd := some (oddFrame, 0) }

/-- A downlink-format-17 message of the `Unknown` variant. -/
def msgUnknown : Message := { downlink_format := 17, kind := MessageKind.Unknown }

/-- A Mode S surveillance-identity message for ICAO address 1. -/
def msgSquawk : Message :=
  { downlink_format := 5
    kind := MessageKind.ModeSMessage 1 (ModeSMessageKind.SurveillanceIdentity 1200) }

/-- C3 (counterexample): a single `Unknown`-variant message with event
timestamp 5 is processed (the total count becomes 1), yet the global
most-recent event time stays absent instead of becoming 5: the early
return for `Unknown` messages skips the running-maximum update, so the
claim's "including messages of the Unknown variant" fails on the code. -/
theorem unknown_message_skips_most_recent_time :
    (Tracker.new.update_with_message getPosNone msgUnknown [1, 2] 5 0).get_most_recent_message_time
        = none
    ∧ (Tracker.new.update_with_message getPosNone msgUnknown [1, 2] 5 0).get_num_messages = 1 := by
  constructor <;> rfl

/-- C3 (amended): after any sequence of update calls starting from a fresh
tracker, the global most-recent event time is the running maximum of the
event timestamps of the messages that carry a resolvable ICAO address
(`Unknown`-variant messages are skipped by the early return), and it is
absent when no such message has been processed. -/
theorem most_recent_time_is_known_running_max
    (getPos : CPRFrame × CPRFrame → Option Position) (evs : List UpdateEvent) :
    (Tracker.new.processAll getPos evs).get_most_recent_message_time
      = runningMax none (knownEventTimes evs) := by
  show (Tracker.new.processAll getPos evs).most_recent_message_time = _
  rw [processAll_most_recent]
  rfl

/-- C6: after any sequence of N update calls from a fresh tracker the total
message count equals N and the sum of the per-downlink-format known counts
plus the unknown count equals N; moreover every single update leaves the
total count, the unknown count and every per-downlink-format known and
unknown count non-decreasing. -/
theorem counters_count_and_monotone
    (getPos : CPRFrame × CPRFrame → Option Position) :
    (∀ evs : List UpdateEvent,
      (Tracker.new.processAll getPos evs).get_num_messages = evs.length
      ∧ sumVals (Tracker.new.processAll getPos evs).get_known_message_statistics
          + (Tracker.new.processAll getPos evs).get_num_unknown_messages = evs.length)
    ∧ (∀ (t : Tracker) (m : Message) (d : List Nat) (ti no : Int),
      t.num_messages ≤ (t.update_with_message getPos m d ti no).num_messages
      ∧ t.num_unknown_messages
          ≤ (t.update_with_message getPos m d ti no).num_unknown_messages
      ∧ ∀ df : Nat,
          countOf df t.known_message_counts
            ≤ countOf df (t.update_with_message getPos m d ti no).known_message_counts
          ∧ countOf df t.unknown_message_counts
            ≤ countOf df (t.update_with_message getPos m d ti no).unknown_message_counts) := by
  constructor
  · intro evs
    constructor
    · show (Tracker.new.processAll getPos evs).num_messages = evs.length
      rw [processAll_num_messages]
      simp [Tracker.new]
    · show sumVals (Tracker.new.processAll getPos evs).known_message_counts
          + (Tracker.new.processAll getPos evs).num_unknown_messages = evs.length
      rw [processAll_counter_sum]
      simp [Tracker.new, sumVals]
  · intro t m d ti no
    refine ⟨?_, ?_, ?_⟩
    · rw [update_num_messages]
      omega
    · cases hu : m.kind.isUnknown
      · rw [(update_known_stats getPos t m d ti no hu).2.2.1]
      · rw [(update_unknown_stats getPos t m d ti no
          ((isUnknown_true_iff m.kind).mp hu)).2.2.1]
        omega
    · intro df
      cases hu : m.kind.isUnknown
      · obtain ⟨hk, hun, -, -⟩ := update_known_stats getPos t m d ti no hu
        rw [hk, hun]
        exact ⟨countOf_le_bump df m.downlink_format t.known_message_counts, le_rfl⟩
      · obtain ⟨hk, hun, -, -⟩ := update_unknown_stats getPos t m d ti no
          ((isUnknown_true_iff m.kind).mp hu)
        rw [hk, hun]
        exact ⟨le_rfl, countOf_le_bump df m.downlink_format t.unknown_message_counts⟩

/-- C1 (counterexample): an odd fragment stored at 0 ms paired with an even
fragment fed at 30500 ms has an arrival-time difference of 30.5 seconds —
strictly greater than 30 seconds — yet the source's
`delta.num_seconds().abs() <= 30` truncates it to 30 whole seconds, accepts
the pair, and produces a resolution: the latitude is set from the resolver
and the position-fix time advances, where the claim requires no resolution
at all. -/
theorem truncated_delta_still_resolves :
    (Aircraft.update_position getPosConst aircraftWithOdd evenFrame 30500).1.latitude = some 10
    ∧ (Aircraft.update_position getPosConst aircraftWithOdd evenFrame 30500).1.last_pos_seen
        = some 30500
    ∧ aircraftWithOdd.latitude = none := by
  refine ⟨?_, ?_, ?_⟩ <;> rfl

/-- C1 (amended): for a pair of opposite-parity fragments, if the absolute
arrival-time difference is at least 31 seconds (equivalently: its
truncation to whole seconds exceeds 30) then feeding the fragment produces
no resolution — latitude, longitude and the position-fix time stay
unchanged and no fix interval is returned; if the truncated-second
difference is at most 30 and the external CPR resolver yields a coordinate,
a resolution is produced. -/
theorem position_window_truncated_seconds
    (getPos : CPRFrame × CPRFrame → Option Position)
    (a : Aircraft) (f : CPRFrame) (t : Int) :
    (∀ (o : CPRFrame) (t0 : Int), f.parity = Parity.Even →
      a.last_cpr_odd = some (o, t0) → 31000 ≤ (t - t0).natAbs →
      (Aircraft.update_position getPos a f t).1.latitude = a.latitude
      ∧ (Aircraft.update_position getPos a f t).1.longitude = a.longitude
      ∧ (Aircraft.update_position getPos a f t).1.last_pos_seen = a.last_pos_seen
      ∧ (Aircraft.update_position getPos a f t).2 = none)
    ∧ (∀ (e : CPRFrame) (te : Int), f.parity = Parity.Odd →
      a.last_cpr_even = some (e, te) → 31000 ≤ (te - t).natAbs →
      (Aircraft.update_position getPos a f t).1.latitude = a.latitude
      ∧ (Aircraft.update_position getPos a f t).1.longitude = a.longitude
      ∧ (Aircraft.update_position getPos a f t).1.last_pos_seen = a.last_pos_seen
      ∧ (Aircraft.update_position getPos a f t).2 = none)
    ∧ (∀ (o : CPRFrame) (t0 : Int) (p : Position), f.parity = Parity.Even →
      a.last_cpr_odd = some (o, t0) → (t - t0).natAbs / 1000 ≤ 30 →
      getPos (o, f) = some p →
      (Aircraft.update_position getPos a f t).1.latitude = some p.latitude
      ∧ (Aircraft.update_position getPos a f t).1.longitude = some p.longitude
      ∧ (Aircraft.update_position getPos a f t).1.last_pos_seen = some t)
    ∧ (∀ (e : CPRFrame) (te : Int) (p : Position), f.parity = Parity.Odd →
      a.last_cpr_even = some (e, te) → (te - t).natAbs / 1000 ≤ 30 →
      getPos (e, f) = some p →
      (Aircraft.update_position getPos a f t).1.latitude = some p.latitude
      ∧ (Aircraft.update_position getPos a f t).1.longitude = some p.longitude
      ∧ (Aircraft.update_position getPos a f t).1.last_pos_seen = some t) := by
  refine ⟨?_, ?_, ?_, ?_⟩
  · intro o t0 hp ho hd
    have hguard : ¬ ((t - t0).natAbs / 1000 ≤ 30) := by omega
    simp [Aircraft.update_position, hp, ho, hguard]
  · intro e te hp he hd
    have hguard : ¬ ((te - t).natAbs / 1000 ≤ 30) := by omega
    simp [Aircraft.update_position, hp, he, hguard]
  · intro o t0 p hp ho hd hg
    cases hl : a.last_pos_seen <;>
      simp [Aircraft.update_position, hp, ho, hd, hg, hl]
  · intro e te p hp he hd hg
    cases hl : a.last_pos_seen <;>
      simp [Aircraft.update_position, hp, he, hd, hg, hl]

/-- Witness for the amended C1 theorem: odd fragment at 0 ms and even
fragment at 40000 ms (40 s apart) leave position state unchanged, and the
30.5-second concrete case of its resolve direction. -/
theorem position_window_truncated_seconds_witness :
    (Aircraft.update_position getPosConst aircraftWithOdd evenFrame 40000).1.latitude
        = aircraftWithOdd.latitude
    ∧ (Aircraft.update_position getPosConst aircraftWithOdd evenFrame 40000).1.longitude
        = aircraftWithOdd.longitude
    ∧ (Aircraft.update_position getPosConst aircraftWithOdd evenFrame 40000).1.last_pos_seen
        = aircraftWithOdd.last_pos_seen
    ∧ (Aircraft.update_position getPosConst aircraftWithOdd evenFrame 40000).2 = none :=
  (position_window_truncated_seconds getPosConst aircraftWithOdd evenFrame 40000).1
    oddFrame 0 rfl rfl (by decide)

/-- C5 (counterexample): in a tracker state already holding an odd fragment
from time 0 ms, two even fragments received consecutively at 1000 ms and
2000 ms both resolve: processing the second one advances the position-fix
time to 2000 ms and yields a 1000 ms fix interval, because the second even
fragment pairs with the still-stored stale odd fragment. -/
theorem same_parity_pair_can_resolve :
    (Aircraft.update_position getPosConst
        (Aircraft.update_position getPosConst aircraftWithOdd evenFrame 1000).1
        evenFrame2 2000).1.last_pos_seen = some 2000
    ∧ (Aircraft.update_position getPosConst
        (Aircraft.update_position getPosConst aircraftWithOdd evenFrame 1000).1
        evenFrame2 2000).2 = some 1000
    ∧ evenFrame.parity = evenFrame2.parity := by
  refine ⟨?_, ?_, ?_⟩ <;> rfl

/-- C5 (amended): two fragments of the same parity received consecutively
never produce a resolution at the second fragment, provided no fragment of
the opposite parity is stored in the record; with an opposite-parity
fragment stored, the second same-parity fragment can pair with it and
resolve. -/
theorem same_parity_without_opposite_never_resolves
    (getPos : CPRFrame × CPRFrame → Option Position)
    (a : Aircraft) (f1 f2 : CPRFrame) (t1 t2 : Int)
    (hpar : f1.parity = f2.parity)
    (hoppE : f1.parity = Parity.Even → a.last_cpr_odd = none)
    (hoppO : f1.parity = Parity.Odd → a.last_cpr_even = none) :
    (Aircraft.update_position getPos
        (Aircraft.update_position getPos a f1 t1).1 f2 t2).2 = none
    ∧ (Aircraft.update_position getPos
        (Aircraft.update_position getPos a f1 t1).1 f2 t2).1.latitude
      = (Aircraft.update_position getPos a f1 t1).1.latitude
    ∧ (Aircraft.update_position getPos
        (Aircraft.update_position getPos a f1 t1).1 f2 t2).1.longitude
      = (Aircraft.update_position getPos a f1 t1).1.longitude
    ∧ (Aircraft.update_position getPos
        (Aircraft.update_position getPos a f1 t1).1 f2 t2).1.last_pos_seen
      = (Aircraft.update_position getPos a f1 t1).1.last_pos_seen := by
  cases hp : f1.parity
  · have ho := hoppE hp
    have hp2 : f2.parity = Parity.Even := by rw [hp] at hpar; exact hpar.symm
    simp [Aircraft.update_position, hp, hp2, ho]
  · have he := hoppO hp
    have hp2 : f2.parity = Parity.Odd := by rw [hp] at hpar; exact hpar.symm
    simp [Aircraft.update_position, hp, hp2, he]

/-- Witness for the amended C5 theorem: a fresh aircraft record, two even
fragments at 0 ms and 1000 ms — the second produces no resolution. -/
theorem same_parity_without_opposite_never_resolves_witness :
    (Aircraft.update_position getPosConst
        (Aircraft.update_position getPosConst (Aircraft.new 1 0) evenFrame 0).1
        evenFrame2 1000).2 = none
    ∧ (Aircraft.update_position getPosConst
        (Aircraft.update_position getPosConst (Aircraft.new 1 0) evenFrame 0).1
        evenFrame2 1000).1.latitude
      = (Aircraft.update_position getPosConst (Aircraft.new 1 0) evenFrame 0).1.latitude
    ∧ (Aircraft.update_position getPosConst
        (Aircraft.update_position getPosConst (Aircraft.new 1 0) evenFrame 0).1
        evenFrame2 1000).1.longitude
      = (Aircraft.update_position getPosConst (Aircraft.new 1 0) evenFrame 0).1.longitude
    ∧ (Aircraft.update_position getPosConst
        (Aircraft.update_position getPosConst (Aircraft.new 1 0) evenFrame 0).1
        evenFrame2 1000).1.last_pos_seen
      = (Aircraft.update_position getPosConst (Aircraft.new 1 0) evenFrame 0).1.last_pos_seen :=
  same_parity_without_opposite_never_resolves getPosConst (Aircraft.new 1 0)
    evenFrame evenFrame2 0 1000 rfl (fun _ => rfl) (fun _ => rfl)

/-- C8: whenever both slots are populated within the validity window, the
resolved coordinate is exactly what the external resolver returns on the
ordered pair determined by the parity of the most recent fragment —
`(odd, even)` when the most recent arrival is `Even`, `(even, odd)` when it
is `Odd` (the incoming fragment `f` is the second, resp. first, component). -/
theorem resolver_argument_order (getPos : CPRFrame × CPRFrame → Option Position)
    (a : Aircraft) (f : CPRFrame) (t : Int) :
    (∀ (o : CPRFrame) (t0 : Int), f.parity = Parity.Even →
      a.last_cpr_odd = some (o, t0) → (t - t0).natAbs / 1000 ≤ 30 →
      (Aircraft.update_position getPos a f t).1.latitude
        = (match getPos (o, f) with
           | some p => some p.latitude
           | none => a.latitude)
      ∧ (Aircraft.update_position getPos a f t).1.longitude
        = (match getPos (o, f) with
           | some p => some p.longitude
           | none => a.longitude))
    ∧ (∀ (e : CPRFrame) (te : Int), f.parity = Parity.Odd →
      a.last_cpr_even = some (e, te) → (te - t).natAbs / 1000 ≤ 30 →
      (Aircraft.update_position getPos a f t).1.latitude
        = (match getPos (e, f) with
           | some p => some p.latitude
           | none => a.latitude)
      ∧ (Aircraft.update_position getPos a f t).1.longitude
        = (match getPos (e, f) with
           | some p => some p.longitude
           | none => a.longitude)) := by
  constructor
  · intro o t0 hp ho hd
    cases hg : getPos (o, f) <;> cases hl : a.last_pos_seen <;>
      simp [Aircraft.update_position, hp, ho, hd, hg, hl]
  · intro e te hp he hd
    cases hg : getPos (e, f) <;> cases hl : a.last_pos_seen <;>
      simp [Aircraft.update_position, hp, he, hd, hg, hl]

/-- Witness for the C8 theorem: odd fragment at 0 ms, even fragment at
1000 ms, constant resolver — the resolved latitude/longitude equal the
resolver's output on the ordered pair `(odd, even)`. -/
theorem resolver_argument_order_witness :
    (Aircraft.update_position getPosConst aircraftWithOdd evenFrame 1000).1.latitude
      = (match getPosConst (oddFrame, evenFrame) with
         | some p => some p.latitude
         | none => aircraftWithOdd.latitude)
    ∧ (Aircraft.update_position getPosConst aircraftWithOdd evenFrame 1000).1.longitude
      = (match getPosConst (oddFrame, evenFrame) with
         | some p => some p.longitude
         | none => aircraftWithOdd.longitude) :=
  (resolver_argument_order getPosConst aircraftWithOdd evenFrame 1000).1
    oddFrame 0 rfl rfl (by decide)

/-- Sanity check of the `parse_avr` embedding against the repository's own
unit test vector. -/
theorem parse_avr_reference_vector :
    parse_avr ("*8DA46D4F99155818A8044075D32B;".data)
      = RustOutcome.ok (Except.ok
          [141, 164, 109, 79, 153, 21, 88, 24, 168, 4, 64, 117, 211, 43]) := by
  rfl

/-- C7: the current-aircraft query returns exactly the stored records with
`now - last_seen < interval`, and a record exactly on the boundary
(`now - last_seen = interval`) is excluded. -/
theorem get_current_exact_window (t : Tracker) (interval now : Int) (a : Aircraft) :
    (a ∈ t.get_current_aircraft interval now
      ↔ a ∈ t.map.map Prod.snd ∧ now - a.last_seen < interval)
    ∧ (now - a.last_seen = interval → a ∉ t.get_current_aircraft interval now) := by
  constructor
  · simp [Tracker.get_current_aircraft, List.mem_filter]
  · intro heq hmem
    have h := (List.mem_filter.mp hmem).2
    simp only [decide_eq_true_eq] at h
    rw [heq] at h
    exact lt_irrefl interval h

/-- A tracker holding exactly one aircraft record, last seen at time 0 ms. -/
def trackerOne : Tracker := { Tracker.new with map := [(1, Aircraft.new 1 0)] }

/-- Witness for the C7 theorem: a record last seen at 0 ms is excluded by a
10 ms window queried at reference time 10 ms (boundary case). -/
theorem get_current_exact_window_witness :
    Aircraft.new 1 0 ∉ trackerOne.get_current_aircraft 10 10 :=
  (get_current_exact_window trackerOne 10 10 (Aircraft.new 1 0)).2 (by decide)

/-- C10: a stored record whose `last_seen` lies in the future of the query's
reference time (reachable, since `last_seen` is overwritten with whatever
event timestamp arrives, even out of order) is returned for every positive
window: the signed difference `now - last_seen` is negative. -/
theorem future_last_seen_always_current (t : Tracker) (interval now : Int)
    (a : Aircraft) (hpos : 0 < interval) (hmem : a ∈ t.map.map Prod.snd)
    (hfut : now < a.last_seen) :
    a ∈ t.get_current_aircraft interval now := by
  show a ∈ (t.map.map Prod.snd).filter (fun x => now - x.last_seen < interval)
  refine List.mem_filter.mpr ⟨hmem, ?_⟩
  simp only [decide_eq_true_eq]
  omega

/-- Witness for the C10 theorem: an update with event timestamp 100 ms
(arriving out of order) makes the record current for a query at reference
time 50 ms with a 1 ms window. -/
theorem future_last_seen_always_current_witness :
    { Aircraft.new 1 100 with squawk := some 1200 }
      ∈ (Tracker.new.update_with_message getPosNone msgSquawk [] 100 0).get_current_aircraft
          1 50 :=
  future_last_seen_always_current
    (Tracker.new.update_with_message getPosNone msgSquawk [] 100 0) 1 50
    { Aircraft.new 1 100 with squawk := some 1200 }
    (by decide) (by decide) (by decide)

/-- Decoder stub that accepts any frame, returning the Unknown message. -/
def decodeAccept : List Char → Except Unit Message := fun _ => Except.ok msgUnknown

/-- Decoder stub that rejects every frame with a decode error. -/
def decodeReject : List Char → Except Unit Message := fun _ => Except.error ()

/-- C2: on the frame `*GG;`, whose interior is not valid hex, an external
decoder that accepts the frame drives `update_with_avr` into its
`panic!("Done")` branch — the process terminates instead of an error being
returned — while a decoder that rejects the frame is propagated as the
typed decode error the claim requires on every path. -/
theorem update_with_avr_panics_on_bad_hex :
    Tracker.update_with_avr getPosNone decodeAccept Tracker.new
        ("*GG;".data) 0 0 = UpdateAvrResult.panicked
    ∧ Tracker.update_with_avr getPosNone decodeReject Tracker.new
        ("*GG;".data) 0 0 = UpdateAvrResult.decodeError := by
  refine ⟨?_, ?_⟩ <;> rfl

/-- C9: the public hex-frame unpacking function `parse_avr` panics on the
empty string — the `usize` computation `frame.len() - 1` underflows (in a
release build the wrapped range then drives an out-of-bounds slice) — so
`parse_avr` is not total over all string inputs. -/
theorem parse_avr_empty_panics :
    parse_avr ("".data) = RustOutcome.panicked := by
  rfl

/-- C4 (counterexample): after exactly one known-address message processed
at wall-clock time 5 ms, the first and most-recent processing times
coincide — the elapsed time is zero — yet the throughput query returns a
value (count 1 over 0 elapsed milliseconds) rather than `none`: the source
performs the IEEE `f64` division with a zero denominator instead of
guarding it. -/
theorem throughput_zero_elapsed_still_some :
    (Tracker.new.update_with_message getPosNone msgSquawk [] 100 5).get_messages_per_second_real_time
      = some (1, 0) := by
  rfl

/-- C4 (amended): the throughput query returns `none` exactly when the
wall-clock first/most-recent processing times are unset — in particular
before any known-address message has been processed — and otherwise
returns a value even when the elapsed time is zero (no division-by-zero
guard exists; the `f64` quotient is simply non-finite there). -/
theorem throughput_some_iff_times_set (t : Tracker) :
    (t.get_messages_per_second_real_time).isSome
        = (t.first_message_real_time.isSome && t.most_recent_message_real_time.isSome)
    ∧ Tracker.new.get_messages_per_second_real_time = none := by
  constructor
  · cases h1 : t.first_message_real_time <;> cases h2 : t.most_recent_message_real_time <;>
      simp [Tracker.get_messages_per_second_real_time, h1, h2]
  · rfl
